import Mathlib

/-!
Shallow embedding of the Image-to-PDF conversion tool
(`Image to PDF Conversion Tool.py`; `untitled0.py` is an identical
earlier copy of the same classes, so one embedding covers both).

Modelling conventions:
* Python float division on the nonnegative integers appearing here is
  idealised as exact rational arithmetic over `ℚ`, matching the spec's
  "real-number divisions"; Python `int(...)` truncation on nonnegative
  values is `Nat.floor`.
* A PIL image is abstracted to its dimensions plus an opaque content
  tag; the PIL library calls used by the tool are modelled by their
  documented effect on dimensions, with the content tag carried along.
* A Python method that can raise an uncaught exception is embedded as
  an `Option`-valued function, `none` standing for the raised exception.
-/

namespace ImageToPDF

/-- An abstract PIL image: its pixel dimensions plus an opaque tag that
stands for the pixel content. -/
structure Image where
  width : ℕ
  height : ℕ
  data : ℕ
deriving DecidableEq

/-- External PIL call `image.rotate(90, expand=True)`: a quarter turn
with an expanded bounding box swaps width and height, cropping nothing. -/
def pilRotate90 (i : Image) : Image :=
  { width := i.height, height := i.width, data := i.data }

/-- External PIL call `PIL.ImageOps.mirror`: a left-right mirror keeps
both dimensions. -/
def pilMirror (i : Image) : Image :=
  { width := i.width, height := i.height, data := i.data }

/-- External PIL call `image.resize((w, h))`: the result has exactly the
requested dimensions. -/
def pilResize (i : Image) (w h : ℕ) : Image :=
  { width := w, height := h, data := i.data }

/-- The scaling arm of `ImageFrame.resize_original_image`
(lines 104-113 of the source): whichever side deviates most from its
maximum is reduced to that maximum, the other side follows the aspect
ratio. -/
def resize_scaled (length height : ℕ) : ℕ × ℕ :=
  let aspect_ratio : ℚ := (length : ℚ) / (height : ℚ)
  let length_distance : ℚ := (length : ℚ) / 800
  let height_distance : ℚ := (height : ℚ) / 600
  if length_distance > height_distance then
    let length_resize : ℕ := ⌊(length : ℚ) / length_distance⌋₊
    let height_resize : ℕ := ⌊(length_resize : ℚ) / aspect_ratio⌋₊
    (length_resize, height_resize)
  else
    let height_resize : ℕ := ⌊(height : ℚ) / height_distance⌋₊
    let length_resize : ℕ := ⌊(height_resize : ℚ) * aspect_ratio⌋₊
    (length_resize, height_resize)

/-- Size computation of `ImageFrame.resize_original_image`
(lines 77-113).  `none` models the `ZeroDivisionError` raised at
`aspect_ratio = length / height` when the height is zero.  Both
orientation branches perform the same strict no-op test and use the
same constants 800 and 600, exactly as in the source. -/
def resize_size (length height : ℕ) : Option (ℕ × ℕ) :=
  if height = 0 then none
  else if length > height then
    if length < 800 ∧ height < 600 then some (length, height)
    else some (resize_scaled length height)
  else
    if length < 800 ∧ height < 600 then some (length, height)
    else some (resize_scaled length height)

/-- One `ImageFrame`: the canonical image and its derived preview. -/
structure ImageFrame where
  original_image : Image
  resized_image : Image
deriving DecidableEq

/-- Method `ImageFrame.resize_original_image` at the image level: set
`resized_image` from `original_image`.  In the no-op branch the source
reuses the original object; that coincides with the `pilResize` value
here because content is abstract and the dimensions are unchanged. -/
def resize_frame (f : ImageFrame) : Option ImageFrame :=
  (resize_size f.original_image.width f.original_image.height).map
    (fun d => { f with resized_image := pilResize f.original_image d.1 d.2 })

/-- Method `ImageFrame.apply_image_edit` (lines 69-75): recompute the
preview; the remaining lines only refresh tkinter display state. -/
def apply_image_edit (f : ImageFrame) : Option ImageFrame :=
  resize_frame f

/-- Constructor `ImageFrame.__init__` (lines 37-67), restricted to its
image state: store the opened image and derive the preview from it. -/
def ImageFrame.create (img : Image) : Option ImageFrame :=
  resize_frame { original_image := img, resized_image := img }

/-- Method `ImageFrame.rotate` (lines 115-118): rotate the canonical
image a quarter turn, then re-derive the preview. -/
def ImageFrame.rotate (f : ImageFrame) : Option ImageFrame :=
  apply_image_edit { f with original_image := pilRotate90 f.original_image }

/-- Method `ImageFrame.flip` (lines 120-123): mirror the canonical
image, then re-derive the preview. -/
def ImageFrame.flip (f : ImageFrame) : Option ImageFrame :=
  apply_image_edit { f with original_image := pilMirror f.original_image }

/-- State of the `ControlFrame`: the list of image frames, the number of
radio buttons, and the tkinter `IntVar` holding the selected index. -/
structure ControlFrame where
  frames : List ImageFrame
  buttons : ℕ
  selected_value : ℕ
deriving DecidableEq

/-- Initial `ControlFrame` state (lines 199-229): empty lists, and the
fresh `IntVar()` starts at 0. -/
def ControlFrame.init : ControlFrame :=
  { frames := [], buttons := 0, selected_value := 0 }

/-- Method `ControlFrame.change_frame` (lines 231-234): look up the
frame at the selected index and raise it; display only, no state
change.  Returns the raised frame, `none` for an `IndexError`. -/
def ControlFrame.change_frame (c : ControlFrame) : Option ImageFrame :=
  c.frames.get? c.selected_value

/-- Method `ControlFrame.add_new_image` (lines 236-259), given the image
decoded from the user-chosen file.  It appends the new frame, appends a
radio button (creating a `Radiobutton` does not assign the shared
`IntVar`, so the selected index is untouched), calls `change_frame`, and
falls off the end: the Python method returns `None`, which is the second
component of the result. -/
def ControlFrame.add_new_image (c : ControlFrame) (img : Image) :
    Option (ControlFrame × Option ℕ) :=
  match ImageFrame.create img with
  | none => none
  | some nf =>
    let c2 : ControlFrame :=
      { frames := c.frames ++ [nf], buttons := c.buttons + 1,
        selected_value := c.selected_value }
    match c2.change_frame with
    | none => none
    | some _ => some (c2, none)

/-- Python exceptions relevant to export.  `indexError` is what
`images[0]` raises on an empty list.  `emptyExportError` is modelled
from the spec: the error name the spec assigns to an empty export; the
source never produces it. -/
inductive PyError where
  | indexError : PyError
  | emptyExportError : PyError
deriving DecidableEq

/-- Outcome of `save_as_pdf`: the user cancelled the save dialog, a
document with the given page list was written, or an exception was
raised (and nothing was written). -/
inductive SaveOutcome where
  | cancelled : SaveOutcome
  | wrote : List Image → SaveOutcome
  | error : PyError → SaveOutcome
deriving DecidableEq

/-- Method `ControlFrame.save_as_pdf` (lines 261-271): an empty dialog
answer is a no-op; otherwise the list of original images is gathered and
`images[0].save(directory, save_all=True, append_images=images[1:])`
writes one document whose pages are the whole list in order - and
indexing `images[0]` on an empty list raises `IndexError` before
anything is written. -/
def ControlFrame.save_as_pdf (c : ControlFrame) (directory : String) :
    SaveOutcome :=
  if directory = "" then SaveOutcome.cancelled
  else
    match c.frames.map (fun frame => frame.original_image) with
    | [] => SaveOutcome.error PyError.indexError
    | img0 :: rest => SaveOutcome.wrote (img0 :: rest)

/-- Modelled from the spec: the section 4.1 scaling rules, written with
the spec's stated tie-break toward the width branch
(`width_ratio ≥ height_ratio` picks the width-constrained formulas). -/
def resize_scaled_spec (w h : ℕ) : ℕ × ℕ :=
  let aspect_ratio : ℚ := (w : ℚ) / (h : ℚ)
  let width_ratio : ℚ := (w : ℚ) / 800
  let height_ratio : ℚ := (h : ℚ) / 600
  if width_ratio ≥ height_ratio then
    let fw : ℕ := ⌊(w : ℚ) / width_ratio⌋₊
    (fw, ⌊(fw : ℚ) / aspect_ratio⌋₊)
  else
    let fh : ℕ := ⌊(h : ℚ) / height_ratio⌋₊
    (⌊(fh : ℚ) * aspect_ratio⌋₊, fh)

/-- Consistency of a frame's preview with its current canonical image:
the preview's dimensions are exactly what the size computation of
`resize_original_image` yields for the canonical dimensions, and the
preview's aspect ratio matches the canonical one up to less than one
pixel of truncation error in the dependently computed dimension. -/
def previewConsistent (f : ImageFrame) : Prop :=
  resize_size f.original_image.width f.original_image.height
      = some (f.resized_image.width, f.resized_image.height)
  ∧ (|(f.resized_image.height : ℚ) -
        (f.resized_image.width : ℚ) * (f.original_image.height : ℚ) /
          (f.original_image.width : ℚ)| < 1
     ∨ |(f.resized_image.width : ℚ) -
          (f.resized_image.height : ℚ) * (f.original_image.width : ℚ) /
            (f.original_image.height : ℚ)| < 1)

/-! ### Closed form of the size computation -/

/-- The branch test `length / 800 > height / 600` of the scaling arm is
the integer comparison `4 * height < 3 * length`. -/
lemma scaled_branch_iff (l h : ℕ) :
    ((h : ℚ) / 600 < (l : ℚ) / 800) ↔ 4 * h < 3 * l := by
  rw [div_lt_div_iff₀ (by norm_num) (by norm_num)]
  constructor
  · intro hx
    have hx2 : h * 800 < l * 600 := by exact_mod_cast hx
    omega
  · intro hx
    have hx2 : h * 800 < l * 600 := by omega
    exact_mod_cast hx2

/-- Reducing a positive side to its own deviation from a bound lands
exactly on the bound. -/
lemma div_self_div (a b : ℚ) (ha : a ≠ 0) : a / (a / b) = b := by
  rw [div_div_eq_mul_div, mul_comm, mul_div_assoc, div_self ha, mul_one]

/-- The scaling arm, as pure natural-number arithmetic (for a positive
height): the constrained side becomes its bound, the other side is the
floor of the exactly proportional value. -/
lemma resize_scaled_closed (l h : ℕ) (hh : 0 < h) :
    resize_scaled l h =
      if 4 * h < 3 * l then (800, 800 * h / l) else (600 * l / h, 600) := by
  have hq : (h : ℚ) ≠ 0 := Nat.cast_ne_zero.mpr hh.ne'
  by_cases hbr : 4 * h < 3 * l
  · have hl : (l : ℚ) ≠ 0 := by
      have hlpos : 0 < l := by omega
      exact Nat.cast_ne_zero.mpr hlpos.ne'
    have hb : (l : ℚ) / 800 > (h : ℚ) / 600 := (scaled_branch_iff l h).mpr hbr
    have e1 : (l : ℚ) / ((l : ℚ) / 800) = ((800 : ℕ) : ℚ) := by
      rw [div_self_div _ _ hl]
      norm_num
    have e2 : (((800 : ℕ) : ℚ)) / ((l : ℚ) / (h : ℚ))
        = ((800 * h : ℕ) : ℚ) / ((l : ℕ) : ℚ) := by
      rw [div_div_eq_mul_div]
      push_cast
      ring
    simp only [resize_scaled, if_pos hb, if_pos hbr, e1, Nat.floor_natCast,
      e2, Nat.floor_div_eq_div]
  · have hb : ¬ ((l : ℚ) / 800 > (h : ℚ) / 600) := by
      rw [gt_iff_lt, scaled_branch_iff]
      exact hbr
    have e3 : (h : ℚ) / ((h : ℚ) / 600) = ((600 : ℕ) : ℚ) := by
      rw [div_self_div _ _ hq]
      norm_num
    have e4 : (((600 : ℕ) : ℚ)) * ((l : ℚ) / (h : ℚ))
        = ((600 * l : ℕ) : ℚ) / ((h : ℕ) : ℚ) := by
      push_cast
      ring
    simp only [resize_scaled, if_neg hb, if_neg hbr, e3, Nat.floor_natCast,
      e4, Nat.floor_div_eq_div]

/-- The whole size computation, as pure natural-number arithmetic for a
positive height; the orientation branch is immaterial because both
branches of the source are identical. -/
lemma resize_size_closed (l h : ℕ) (hh : 0 < h) :
    resize_size l h =
      if l < 800 ∧ h < 600 then some (l, h)
      else some (if 4 * h < 3 * l then (800, 800 * h / l)
                 else (600 * l / h, 600)) := by
  rw [resize_size, if_neg hh.ne', resize_scaled_closed l h hh]
  by_cases horient : l > h
  · rw [if_pos horient]
  · rw [if_neg horient]

/-- A successful size computation forces a positive height. -/
lemma resize_size_some_height_pos {l h : ℕ} {d : ℕ × ℕ}
    (hd : resize_size l h = some d) : 0 < h := by
  by_contra hzero
  have hz : h = 0 := by omega
  rw [resize_size, if_pos hz] at hd
  exact Option.noConfusion hd

/-- The size computation succeeds exactly on positive heights. -/
lemma resize_size_isSome (l h : ℕ) (hh : h ≠ 0) :
    ∃ d, resize_size l h = some d := by
  rw [resize_size_closed l h (Nat.pos_of_ne_zero hh)]
  split_ifs <;> exact ⟨_, rfl⟩

/-- Truncating a nonnegative rational moves it by less than one. -/
lemma abs_floor_sub_lt_one (q : ℚ) (hq : 0 ≤ q) : |((⌊q⌋₊ : ℕ) : ℚ) - q| < 1 := by
  rw [abs_lt]
  constructor
  · have h1 := Nat.lt_floor_add_one q
    linarith
  · have h2 := Nat.floor_le hq
    linarith

/-- The computed size keeps the input's aspect ratio up to less than one
pixel of truncation error in the dependently computed dimension. -/
lemma aspect_close (l h d1 d2 : ℕ) (hh : 0 < h)
    (hd : resize_size l h = some (d1, d2)) :
    |(d2 : ℚ) - (d1 : ℚ) * (h : ℚ) / (l : ℚ)| < 1 ∨
    |(d1 : ℚ) - (d2 : ℚ) * (l : ℚ) / (h : ℚ)| < 1 := by
  rw [resize_size_closed l h hh] at hd
  split_ifs at hd with hnoop hbr
  · obtain ⟨rfl, rfl⟩ := Prod.mk.inj (Option.some.inj hd)
    right
    have e : (h : ℚ) * (l : ℚ) / (h : ℚ) = (l : ℚ) := by
      rw [mul_comm, mul_div_assoc, div_self (Nat.cast_ne_zero.mpr hh.ne'), mul_one]
    rw [e, sub_self, abs_zero]
    norm_num
  · obtain ⟨rfl, rfl⟩ := Prod.mk.inj (Option.some.inj hd)
    left
    have e : ((800 : ℕ) : ℚ) * (h : ℚ) / (l : ℚ)
        = ((800 * h : ℕ) : ℚ) / ((l : ℕ) : ℚ) := by
      push_cast
      ring
    rw [e, ← Nat.floor_div_eq_div (α := ℚ)]
    exact abs_floor_sub_lt_one _ (by positivity)
  · obtain ⟨rfl, rfl⟩ := Prod.mk.inj (Option.some.inj hd)
    right
    have e : ((600 : ℕ) : ℚ) * (l : ℚ) / (h : ℚ)
        = ((600 * l : ℕ) : ℚ) / ((h : ℕ) : ℚ) := by
      push_cast
      ring
    rw [e, ← Nat.floor_div_eq_div (α := ℚ)]
    exact abs_floor_sub_lt_one _ (by positivity)

/-- Any frame produced by `resize_original_image` has a consistent
preview. -/
lemma previewConsistent_of_resize (f g : ImageFrame)
    (h : resize_frame f = some g) : previewConsistent g := by
  rw [resize_frame] at h
  obtain ⟨d, hd, hg⟩ := Option.map_eq_some'.mp h
  obtain ⟨d1, d2⟩ := d
  subst hg
  have hh : 0 < f.original_image.height := resize_size_some_height_pos hd
  exact ⟨hd, aspect_close _ _ _ _ hh hd⟩

/-- The spec's reference scaling rules, as pure natural-number
arithmetic for a positive height. -/
lemma spec_scaled_closed (l h : ℕ) (hh : 0 < h) :
    resize_scaled_spec l h =
      if 4 * h ≤ 3 * l then (800, 800 * h / l) else (600 * l / h, 600) := by
  have hq : (h : ℚ) ≠ 0 := Nat.cast_ne_zero.mpr hh.ne'
  have hcond : ((l : ℚ) / 800 ≥ (h : ℚ) / 600) ↔ 4 * h ≤ 3 * l := by
    rw [ge_iff_le, div_le_div_iff₀ (by norm_num) (by norm_num)]
    constructor
    · intro hx
      have hx2 : h * 800 ≤ l * 600 := by exact_mod_cast hx
      omega
    · intro hx
      have hx2 : h * 800 ≤ l * 600 := by omega
      exact_mod_cast hx2
  by_cases hbr : 4 * h ≤ 3 * l
  · have hl : (l : ℚ) ≠ 0 := by
      have hlpos : 0 < l := by omega
      exact Nat.cast_ne_zero.mpr hlpos.ne'
    have hb : (l : ℚ) / 800 ≥ (h : ℚ) / 600 := hcond.mpr hbr
    have e1 : (l : ℚ) / ((l : ℚ) / 800) = ((800 : ℕ) : ℚ) := by
      rw [div_self_div _ _ hl]
      norm_num
    have e2 : (((800 : ℕ) : ℚ)) / ((l : ℚ) / (h : ℚ))
        = ((800 * h : ℕ) : ℚ) / ((l : ℕ) : ℚ) := by
      rw [div_div_eq_mul_div]
      push_cast
      ring
    simp only [resize_scaled_spec, if_pos hb, if_pos hbr, e1, Nat.floor_natCast,
      e2, Nat.floor_div_eq_div]
  · have hb : ¬ ((l : ℚ) / 800 ≥ (h : ℚ) / 600) := fun hc => hbr (hcond.mp hc)
    have e3 : (h : ℚ) / ((h : ℚ) / 600) = ((600 : ℕ) : ℚ) := by
      rw [div_self_div _ _ hq]
      norm_num
    have e4 : (((600 : ℕ) : ℚ)) * ((l : ℚ) / (h : ℚ))
        = ((600 * l : ℕ) : ℚ) / ((h : ℕ) : ℚ) := by
      push_cast
      ring
    simp only [resize_scaled_spec, if_neg hb, if_neg hbr, e3, Nat.floor_natCast,
      e4, Nat.floor_div_eq_div]

/-- The source's scaling arm agrees everywhere (positive height) with
the spec's reference rules, tie-break included: at a tie the two
branches compute the same pair, so the `>` in the code and the spec's
tie-to-width reading are extensionally the same function. -/
lemma scaled_eq_spec (l h : ℕ) (hh : 0 < h) :
    resize_scaled l h = resize_scaled_spec l h := by
  rw [resize_scaled_closed l h hh, spec_scaled_closed l h hh]
  rcases Nat.lt_trichotomy (4 * h) (3 * l) with hc | hc | hc
  · rw [if_pos hc, if_pos hc.le]
  · rw [if_neg (by omega), if_pos (by omega)]
    have h6 : 600 * l = 800 * h := by omega
    have hl : 0 < l := by omega
    have e1 : 600 * l / h = 800 := by
      rw [h6]
      exact Nat.mul_div_cancel 800 hh
    have e2 : 800 * h / l = 600 := by
      rw [show 800 * h = 600 * l by omega]
      exact Nat.mul_div_cancel 600 hl
    rw [e1, e2]
  · rw [if_neg (by omega), if_neg (by omega)]

/-- One rotation always succeeds when the canonical width is nonzero,
and replaces the canonical image by its quarter turn. -/
lemma rotate_original (f : ImageFrame) (hw : f.original_image.width ≠ 0) :
    ∃ g, f.rotate = some g ∧ g.original_image = pilRotate90 f.original_image := by
  obtain ⟨d, hd⟩ := resize_size_isSome (pilRotate90 f.original_image).width
    (pilRotate90 f.original_image).height (by simpa [pilRotate90] using hw)
  refine ⟨{ original_image := pilRotate90 f.original_image,
            resized_image := pilResize (pilRotate90 f.original_image) d.1 d.2 },
    ?_, rfl⟩
  have hrw : f.rotate = (resize_size (pilRotate90 f.original_image).width
      (pilRotate90 f.original_image).height).map
        (fun d => { original_image := pilRotate90 f.original_image,
                    resized_image := pilResize (pilRotate90 f.original_image)
                      d.1 d.2 }) := rfl
  rw [hrw, hd, Option.map_some']

/-! ### Concrete evaluations used by counterexamples and witnesses -/

lemma resize_size_500_300 : resize_size 500 300 = some (500, 300) := by
  rw [resize_size_closed 500 300 (by norm_num)]
  norm_num

lemma resize_size_300_500 : resize_size 300 500 = some (300, 500) := by
  rw [resize_size_closed 300 500 (by norm_num)]
  norm_num

lemma resize_size_1000_500 : resize_size 1000 500 = some (800, 400) := by
  rw [resize_size_closed 1000 500 (by norm_num)]
  norm_num

lemma create_500_300 :
    ImageFrame.create ⟨500, 300, 0⟩ = some ⟨⟨500, 300, 0⟩, ⟨500, 300, 0⟩⟩ := by
  rw [ImageFrame.create, resize_frame]
  rw [show ((⟨⟨500, 300, 0⟩, ⟨500, 300, 0⟩⟩ : ImageFrame)).original_image
      = ⟨500, 300, 0⟩ from rfl]
  rw [show ((⟨500, 300, 0⟩ : Image)).width = 500 from rfl,
    show ((⟨500, 300, 0⟩ : Image)).height = 300 from rfl, resize_size_500_300]
  rfl

lemma create_300_500 :
    ImageFrame.create ⟨300, 500, 1⟩ = some ⟨⟨300, 500, 1⟩, ⟨300, 500, 1⟩⟩ := by
  rw [ImageFrame.create, resize_frame]
  rw [show ((⟨⟨300, 500, 1⟩, ⟨300, 500, 1⟩⟩ : ImageFrame)).original_image
      = ⟨300, 500, 1⟩ from rfl]
  rw [show ((⟨300, 500, 1⟩ : Image)).width = 300 from rfl,
    show ((⟨300, 500, 1⟩ : Image)).height = 500 from rfl, resize_size_300_500]
  rfl

lemma add_eval_1 :
    ControlFrame.init.add_new_image ⟨500, 300, 0⟩
      = some (⟨[⟨⟨500, 300, 0⟩, ⟨500, 300, 0⟩⟩], 1, 0⟩, none) := by
  rw [ControlFrame.add_new_image, create_500_300]
  rfl

lemma add_eval_2 :
    ControlFrame.add_new_image ⟨[⟨⟨500, 300, 0⟩, ⟨500, 300, 0⟩⟩], 1, 0⟩
        ⟨300, 500, 1⟩
      = some (⟨[⟨⟨500, 300, 0⟩, ⟨500, 300, 0⟩⟩,
                ⟨⟨300, 500, 1⟩, ⟨300, 500, 1⟩⟩], 2, 0⟩, none) := by
  rw [ControlFrame.add_new_image, create_300_500]
  rfl

/-! ### Claim theorems -/

/-- C1, counterexample: dimensions 1000 by 1 are positive, yet the size
computation returns (800, 0), whose height is not positive — the claim
that the fitter always returns positive dimensions is false. -/
theorem C1_counterexample :
    0 < 1000 ∧ 0 < 1 ∧ resize_size 1000 1 = some (800, 0) := by
  refine ⟨by norm_num, by norm_num, ?_⟩
  rw [resize_size_closed 1000 1 (by norm_num)]
  norm_num

/-- C1, amended: for positive input dimensions whose aspect ratio is
within the representable band (width at most 800 times height, height at
most 600 times width), the size computation returns positive
dimensions. -/
theorem C1_positive_fit (l h : ℕ) (hl : 0 < l) (hh : 0 < h)
    (hwb : l ≤ 800 * h) (hhb : h ≤ 600 * l) :
    ∀ p, resize_size l h = some p → 0 < p.1 ∧ 0 < p.2 := by
  intro p hp
  rw [resize_size_closed l h hh] at hp
  split_ifs at hp with hnoop hbr
  · obtain rfl : (l, h) = p := Option.some.inj hp
    exact ⟨hl, hh⟩
  · obtain rfl : ((800 : ℕ), 800 * h / l) = p := Option.some.inj hp
    exact ⟨by norm_num, Nat.div_pos hwb hl⟩
  · obtain rfl : (600 * l / h, (600 : ℕ)) = p := Option.some.inj hp
    exact ⟨Nat.div_pos hhb hh, by norm_num⟩

/-- C1, witness: the amended theorem applied at input 1000 by 500. -/
theorem C1_witness : 0 < (800 : ℕ) ∧ 0 < (400 : ℕ) :=
  C1_positive_fit 1000 500 (by norm_num) (by norm_num) (by norm_num)
    (by norm_num) (800, 400) resize_size_1000_500

/-- C2: export with a confirmed path on a non-empty collection writes
one document whose page list is exactly the list of canonical
(original) images in insertion order — same length as the collection,
page i at its canonical resolution because page i is the canonical
image itself — and the outcome depends only on the canonical images,
never on the previews. -/
theorem C2_export_pages (c : ControlFrame) (dir : String)
    (hne : c.frames ≠ []) (hdir : dir ≠ "") :
    c.save_as_pdf dir
        = SaveOutcome.wrote (c.frames.map (fun f => f.original_image)) ∧
    (c.frames.map (fun f => f.original_image)).length = c.frames.length ∧
    (∀ c2 : ControlFrame,
      c2.frames.map (fun f => f.original_image)
          = c.frames.map (fun f => f.original_image) →
      c2.save_as_pdf dir = c.save_as_pdf dir) := by
  refine ⟨?_, List.length_map _ _, ?_⟩
  · rw [ControlFrame.save_as_pdf, if_neg hdir]
    cases hm : c.frames.map (fun f => f.original_image) with
    | nil => exact absurd (List.map_eq_nil_iff.mp hm) hne
    | cons a t => rfl
  · intro c2 h2
    rw [ControlFrame.save_as_pdf, ControlFrame.save_as_pdf, if_neg hdir,
      if_neg hdir, h2]

/-- C2, witness: exporting a one-image collection writes that image's
canonical pixels as the single page. -/
theorem C2_witness :
    ControlFrame.save_as_pdf ⟨[⟨⟨500, 300, 0⟩, ⟨500, 300, 0⟩⟩], 1, 0⟩ "out.pdf"
      = SaveOutcome.wrote
          (([⟨⟨500, 300, 0⟩, ⟨500, 300, 0⟩⟩] : List ImageFrame).map
            (fun f => f.original_image)) :=
  (C2_export_pages ⟨[⟨⟨500, 300, 0⟩, ⟨500, 300, 0⟩⟩], 1, 0⟩ "out.pdf"
    (by simp) (by simp)).1

/-- C3, counterexample: the input 800 by 600 fails the strict no-op test
yet is returned unchanged by the scaling path, so the fitter is a no-op
on inputs other than those passing the test, and the claimed
`GeometryFitter(800, 600) ≠ (800, 600)` is false. -/
theorem C3_counterexample :
    resize_size 800 600 = some (800, 600) ∧ ¬ (800 < 800 ∧ 600 < 600) := by
  constructor
  · rw [resize_size_closed 800 600 (by norm_num)]
    norm_num
  · omega

/-- C3, amended: the fitter returns the original unchanged whenever
width < 800 and height < 600 (the strict two-sided test), and in
particular at 799 by 599; but the converse fails: 800 by 600 does not
pass the no-op test and is still returned unchanged by the scaling
path. -/
theorem C3_noop_boundary :
    (∀ l h : ℕ, 0 < h → l < 800 → h < 600 → resize_size l h = some (l, h)) ∧
    resize_size 799 599 = some (799, 599) ∧
    resize_size 800 600 = some (800, 600) := by
  refine ⟨?_, ?_, ?_⟩
  · intro l h hh h8 h6
    rw [resize_size_closed l h hh, if_pos ⟨h8, h6⟩]
  · rw [resize_size_closed 799 599 (by norm_num)]
    norm_num
  · rw [resize_size_closed 800 600 (by norm_num)]
    norm_num

/-- C3, witness: the no-op part of the amended theorem applied at 10 by
20. -/
theorem C3_witness : resize_size 10 20 = some (10, 20) :=
  C3_noop_boundary.1 10 20 (by norm_num) (by norm_num) (by norm_num)

/-- C4: on the scaling path the constraining axis is the one with the
larger ratio (width / 800 versus height / 600), and the source's strict
`>` comparison computes the same function as the spec's reading with
ties going to the width branch: at a tie both branches return the same
pair, so the code equals the tie-to-width reference everywhere. -/
theorem C4_tie_break (l h : ℕ) (_hl : 0 < l) (hh : 0 < h) :
    resize_scaled l h = resize_scaled_spec l h :=
  scaled_eq_spec l h hh

/-- C4, witness: the equivalence applied at the exact-tie input 800 by
600. -/
theorem C4_witness : resize_scaled 800 600 = resize_scaled_spec 800 600 :=
  C4_tie_break 800 600 (by norm_num) (by norm_num)

/-- C5: every input that fails the no-op test is scaled by the reference
formulas, which use the same constants 800 and 600 in both orientation
branches (the orientation test never changes the result). -/
theorem C5_reference_formulas (l h : ℕ) (hh : 0 < h)
    (hno : ¬ (l < 800 ∧ h < 600)) :
    resize_size l h = some (resize_scaled_spec l h) := by
  have h1 : resize_size l h = some (resize_scaled l h) := by
    rw [resize_size, if_neg hh.ne']
    by_cases horient : l > h
    · rw [if_pos horient, if_neg hno]
    · rw [if_neg horient, if_neg hno]
  rw [h1, scaled_eq_spec l h hh]

/-- C5, witness: the reference formulas applied at input 1000 by 500. -/
theorem C5_witness :
    resize_size 1000 500 = some (resize_scaled_spec 1000 500) :=
  C5_reference_formulas 1000 500 (by norm_num) (by omega)

/-- C6: after each Working Image operation returns (create, rotate,
flip), the preview is consistent with the current canonical image: its
dimensions are the fitter's output for the canonical dimensions, and
its aspect ratio matches the canonical one up to less than one pixel of
truncation error. -/
theorem C6_preview_invariant :
    (∀ (img : Image) (f : ImageFrame),
        ImageFrame.create img = some f → previewConsistent f) ∧
    (∀ (f g : ImageFrame), f.rotate = some g → previewConsistent g) ∧
    (∀ (f g : ImageFrame), f.flip = some g → previewConsistent g) := by
  refine ⟨?_, ?_, ?_⟩
  · intro img f h
    exact previewConsistent_of_resize _ _ h
  · intro f g h
    exact previewConsistent_of_resize _ _ h
  · intro f g h
    exact previewConsistent_of_resize _ _ h

/-- C6, witness: the create clause applied to a 500 by 300 image. -/
theorem C6_witness : previewConsistent ⟨⟨500, 300, 0⟩, ⟨500, 300, 0⟩⟩ :=
  C6_preview_invariant.1 ⟨500, 300, 0⟩ ⟨⟨500, 300, 0⟩, ⟨500, 300, 0⟩⟩
    create_500_300

/-- C7, counterexample: export on an empty collection with a confirmed
path fails with a plain `IndexError` from `images[0]`, which is not the
`EmptyExportError` the claim names. -/
theorem C7_counterexample :
    ControlFrame.save_as_pdf ⟨[], 0, 0⟩ "out.pdf"
        = SaveOutcome.error PyError.indexError ∧
    PyError.indexError ≠ PyError.emptyExportError := by
  constructor
  · rw [ControlFrame.save_as_pdf, if_neg (by simp)]
    rfl
  · intro h
    exact PyError.noConfusion h

/-- C7, amended: export requested on an empty collection with a
confirmed path raises an uncaught `IndexError` (from indexing the empty
page list) before anything is written, so no file is produced. -/
theorem C7_empty_export (c : ControlFrame) (dir : String)
    (hempty : c.frames = []) (hdir : dir ≠ "") :
    c.save_as_pdf dir = SaveOutcome.error PyError.indexError ∧
    ∀ pages, c.save_as_pdf dir ≠ SaveOutcome.wrote pages := by
  have h1 : c.save_as_pdf dir = SaveOutcome.error PyError.indexError := by
    rw [ControlFrame.save_as_pdf, if_neg hdir, hempty]
    rfl
  refine ⟨h1, fun pages hw => ?_⟩
  rw [h1] at hw
  exact SaveOutcome.noConfusion hw

/-- C7, witness: the amended theorem applied to the empty initial
state. -/
theorem C7_witness :
    ControlFrame.save_as_pdf ⟨[], 0, 0⟩ "a.pdf"
        = SaveOutcome.error PyError.indexError ∧
    ∀ pages, ControlFrame.save_as_pdf ⟨[], 0, 0⟩ "a.pdf"
        ≠ SaveOutcome.wrote pages :=
  C7_empty_export ⟨[], 0, 0⟩ "a.pdf" rfl (by simp)

/-- C8, counterexample: adding two images to a fresh state appends both
frames, but the selected index stays 0 (creating a radio button does
not assign the `IntVar`), not 1 as the claim requires, and the method
returns `None` rather than the new index. -/
theorem C8_counterexample :
    (ControlFrame.init.add_new_image ⟨500, 300, 0⟩).bind
        (fun r => r.1.add_new_image ⟨300, 500, 1⟩)
      = some (⟨[⟨⟨500, 300, 0⟩, ⟨500, 300, 0⟩⟩,
                ⟨⟨300, 500, 1⟩, ⟨300, 500, 1⟩⟩], 2, 0⟩, none) ∧
    (0 : ℕ) ≠ 1 ∧ (none : Option ℕ) ≠ some 1 := by
  refine ⟨?_, by omega, by simp⟩
  rw [add_eval_1]
  exact add_eval_2

/-- C8, amended: every successful add appends the new Working Image at
the end (index n), leaves the selected index unchanged rather than
setting it to n, and returns `None` rather than n. -/
theorem C8_add_appends (c : ControlFrame) (img : Image) (c2 : ControlFrame)
    (r : Option ℕ) (h : c.add_new_image img = some (c2, r)) :
    ∃ nf, ImageFrame.create img = some nf ∧
      c2.frames = c.frames ++ [nf] ∧
      c2.frames.length = c.frames.length + 1 ∧
      c2.selected_value = c.selected_value ∧
      c2.buttons = c.buttons + 1 ∧
      r = none := by
  rw [ControlFrame.add_new_image] at h
  cases hcr : ImageFrame.create img with
  | none =>
    rw [hcr] at h
    exact Option.noConfusion h
  | some nf =>
    rw [hcr] at h
    dsimp only at h
    cases hcf : ControlFrame.change_frame
        ⟨c.frames ++ [nf], c.buttons + 1, c.selected_value⟩ with
    | none =>
      rw [hcf] at h
      exact Option.noConfusion h
    | some fr =>
      rw [hcf] at h
      obtain ⟨hA, hB⟩ := Prod.mk.inj (Option.some.inj h)
      refine ⟨nf, rfl, ?_, ?_, ?_, ?_, hB.symm⟩
      · rw [← hA]
      · rw [← hA]
        simp
      · rw [← hA]
      · rw [← hA]

/-- C8, witness: the amended theorem applied to the first add on a
fresh state. -/
theorem C8_witness :
    ∃ nf, ImageFrame.create ⟨500, 300, 0⟩ = some nf ∧
      (⟨[⟨⟨500, 300, 0⟩, ⟨500, 300, 0⟩⟩], 1, 0⟩ : ControlFrame).frames
          = ControlFrame.init.frames ++ [nf] ∧
      (⟨[⟨⟨500, 300, 0⟩, ⟨500, 300, 0⟩⟩], 1, 0⟩ : ControlFrame).frames.length
          = ControlFrame.init.frames.length + 1 ∧
      (⟨[⟨⟨500, 300, 0⟩, ⟨500, 300, 0⟩⟩], 1, 0⟩ :
          ControlFrame).selected_value = ControlFrame.init.selected_value ∧
      (⟨[⟨⟨500, 300, 0⟩, ⟨500, 300, 0⟩⟩], 1, 0⟩ : ControlFrame).buttons
          = ControlFrame.init.buttons + 1 ∧
      (none : Option ℕ) = none :=
  C8_add_appends ControlFrame.init ⟨500, 300, 0⟩
    ⟨[⟨⟨500, 300, 0⟩, ⟨500, 300, 0⟩⟩], 1, 0⟩ none add_eval_1

/-- C9, counterexample: the fitted output of the positive input 1000 by
1 is (800, 0), and re-fitting (800, 0) raises `ZeroDivisionError`
instead of returning (800, 0), so fitted sizes are not all fixed
points. -/
theorem C9_counterexample :
    resize_size 1000 1 = some (800, 0) ∧ resize_size 800 0 = none := by
  constructor
  · rw [resize_size_closed 1000 1 (by norm_num)]
    norm_num
  · rw [resize_size, if_pos rfl]

/-- C9, amended: for positive input dimensions with width at most 800
times height (so the fitted height cannot truncate to zero), the fitted
size is a fixed point of the fitter. -/
theorem C9_idempotent (l h : ℕ) (hl : 0 < l) (hh : 0 < h)
    (hwb : l ≤ 800 * h) :
    ∀ p, resize_size l h = some p → resize_size p.1 p.2 = some p := by
  intro p hp
  rw [resize_size_closed l h hh] at hp
  split_ifs at hp with hnoop hbr
  · obtain rfl : (l, h) = p := Option.some.inj hp
    rw [resize_size_closed l h hh, if_pos hnoop]
  · obtain rfl : ((800 : ℕ), 800 * h / l) = p := Option.some.inj hp
    obtain ⟨H, hHdef⟩ : ∃ H, 800 * h / l = H := ⟨_, rfl⟩
    have hHpos : 0 < H := hHdef ▸ Nat.div_pos hwb hl
    have hHlt : H < 600 := by
      rw [← hHdef, Nat.div_lt_iff_lt_mul hl]
      omega
    show resize_size 800 (800 * h / l) = some (800, 800 * h / l)
    rw [hHdef, resize_size_closed 800 H hHpos,
      if_neg (fun hcon => Nat.lt_irrefl 800 hcon.1), if_pos (by omega),
      Nat.mul_div_cancel_left H (by norm_num : 0 < (800 : ℕ))]
  · obtain rfl : (600 * l / h, (600 : ℕ)) = p := Option.some.inj hp
    obtain ⟨W, hWdef⟩ : ∃ W, 600 * l / h = W := ⟨_, rfl⟩
    have hWle : W ≤ 800 := by
      rw [← hWdef]
      have h68 : 600 * l ≤ 800 * h := by omega
      calc 600 * l / h ≤ 800 * h / h := Nat.div_le_div_right h68
        _ = 800 := Nat.mul_div_cancel 800 hh
    show resize_size (600 * l / h) 600 = some (600 * l / h, 600)
    rw [hWdef, resize_size_closed W 600 (by norm_num),
      if_neg (fun hcon => Nat.lt_irrefl 600 hcon.2), if_neg (by omega),
      Nat.mul_div_cancel_left W (by norm_num : 0 < (600 : ℕ))]

/-- C9, witness: the amended theorem applied at input 1000 by 500, whose
fitted size (800, 400) re-fits to itself. -/
theorem C9_witness : resize_size 800 400 = some (800, 400) :=
  C9_idempotent 1000 500 (by norm_num) (by norm_num) (by norm_num)
    (800, 400) resize_size_1000_500

/-- C10: one rotation swaps the canonical width and height, and four
rotations in a row all succeed and return the canonical dimensions to
their original values. -/
theorem C10_rotate_cycle (f : ImageFrame)
    (hw : 0 < f.original_image.width) (hh : 0 < f.original_image.height) :
    (∃ g, f.rotate = some g ∧
        g.original_image.width = f.original_image.height ∧
        g.original_image.height = f.original_image.width) ∧
    (∃ g, (((f.rotate.bind ImageFrame.rotate).bind ImageFrame.rotate).bind
          ImageFrame.rotate) = some g ∧
        g.original_image.width = f.original_image.width ∧
        g.original_image.height = f.original_image.height) := by
  obtain ⟨g1, hg1, ho1⟩ := rotate_original f (by omega)
  have hw1 : g1.original_image.width ≠ 0 := by
    rw [ho1]
    simpa [pilRotate90] using hh.ne'
  obtain ⟨g2, hg2, ho2⟩ := rotate_original g1 hw1
  have hw2 : g2.original_image.width ≠ 0 := by
    rw [ho2, ho1]
    simpa [pilRotate90] using hw.ne'
  obtain ⟨g3, hg3, ho3⟩ := rotate_original g2 hw2
  have hw3 : g3.original_image.width ≠ 0 := by
    rw [ho3, ho2, ho1]
    simpa [pilRotate90] using hh.ne'
  obtain ⟨g4, hg4, ho4⟩ := rotate_original g3 hw3
  constructor
  · refine ⟨g1, hg1, ?_, ?_⟩
    · rw [ho1]
      rfl
    · rw [ho1]
      rfl
  · refine ⟨g4, ?_, ?_, ?_⟩
    · rw [hg1, Option.some_bind, hg2, Option.some_bind, hg3,
        Option.some_bind, hg4]
    · rw [ho4, ho3, ho2, ho1]
      rfl
    · rw [ho4, ho3, ho2, ho1]
      rfl

/-- C10, witness: the rotate cycle applied to a 500 by 300 frame. -/
theorem C10_witness :
    (∃ g, ImageFrame.rotate ⟨⟨500, 300, 0⟩, ⟨500, 300, 0⟩⟩ = some g ∧
        g.original_image.width = 300 ∧ g.original_image.height = 500) ∧
    (∃ g, ((((ImageFrame.rotate ⟨⟨500, 300, 0⟩, ⟨500, 300, 0⟩⟩).bind
          ImageFrame.rotate).bind ImageFrame.rotate).bind ImageFrame.rotate)
        = some g ∧
        g.original_image.width = 500 ∧ g.original_image.height = 300) :=
  C10_rotate_cycle ⟨⟨500, 300, 0⟩, ⟨500, 300, 0⟩⟩ (by norm_num) (by norm_num)

end ImageToPDF
